import Mathlib

/-!
Shallow embedding of the vehicle decoder application
(source files `models.py`, `decoder.py`, `app.py`).

The behaviour of the external `requests` HTTP client and of JSON parsing is
modelled by transport oracles (an oracle value says what the library call
returned or raised); everything else is translated directly from the source.
Python optional strings become `Option String`; Python dictionaries with
string keys become association lists; a Python function that may raise
becomes a Lean function into `Except`.
-/

set_option autoImplicit false

namespace VehicleDecoder

/-! ## Python string truthiness helpers -/

/-- Python truthiness of an `Optional[str]` value: `None` and `""` are falsy,
every other string is truthy. -/
def truthyStr : Option String → Bool
  | none => false
  | some s => decide (s ≠ "")

/-- Python `x or None` applied to an `Optional[str]` value `x`. -/
def pyOrNone (v : Option String) : Option String :=
  if truthyStr v then v else none

/-- Python `x or ""` applied to an `Optional[str]` value `x`. -/
def pyOrEmpty (v : Option String) : String :=
  match v with
  | none => ""
  | some s => s

/-- Python `a or b` on two `Optional[str]` values. -/
def pyOrElse (a b : Option String) : Option String :=
  if truthyStr a then a else b

/-! ## The Car data model (`models.py` lines 18-38; the fallback copy in
`decoder.py` lines 57-71 is textually identical, so one Lean structure
models both). -/

/-- The `Car` dataclass: every field is an optional string defaulting to
`None`. -/
structure Car where
  vin : Option String := none
  year : Option String := none
  make : Option String := none
  model : Option String := none
  body_style : Option String := none
  engine : Option String := none
  assembly : Option String := none
  description : Option String := none
  deriving DecidableEq, Repr

/-- Python `dataclasses.asdict(self).items()` for a `Car`: all eight fields
in declaration order. -/
def Car.asdict_items (c : Car) : List (String × Option String) :=
  [("vin", c.vin), ("year", c.year), ("make", c.make), ("model", c.model),
   ("body_style", c.body_style), ("engine", c.engine), ("assembly", c.assembly),
   ("description", c.description)]

/-- Python `v not in (None, "")`, the filter condition of `Car.to_dict`. -/
def keptValue : Option String → Bool
  | none => false
  | some s => decide (s ≠ "")

/-- The `Car.to_dict` serializer (`models.py` lines 36-38): keep exactly the
items whose value is neither `None` nor `""`. -/
def Car.to_dict (c : Car) : List (String × Option String) :=
  c.asdict_items.filter (fun kv => keptValue kv.2)

/-! ## The vPIC result dictionary and the VIN normalizer
(`decoder.py` lines 142-165). -/

/-- A raw vPIC result dictionary: string keys mapped to optional string
values (vPIC reports every decoded variable as a string or null). -/
abbrev VpicResult := List (String × Option String)

/-- Python `result.get(k)`: `None` when the key is absent, otherwise the
stored value. -/
def dictGet (r : VpicResult) (k : String) : Option String :=
  match r.lookup k with
  | some v => v
  | none => none

/-- Python `" ".join` on a list of strings. -/
def joinSpace : List String → String
  | [] => ""
  | [p] => p
  | p :: q :: ps => p ++ " " ++ joinSpace (q :: ps)

/-- The engine-description assembly inside `parse_vin_result`
(`decoder.py` lines 150-161): collect `cylinders ++ "-cyl"`, `disp ++ "L"`
and `fuel`, each guarded by its own truthiness, then join with single
spaces, or `None` when no part was collected. -/
def engine_description (cylinders disp_l fuel : String) : Option String :=
  let parts : List String :=
    (if cylinders ≠ "" then [cylinders ++ "-cyl"] else []) ++
    (if disp_l ≠ "" then [disp_l ++ "L"] else []) ++
    (if fuel ≠ "" then [fuel] else [])
  if parts ≠ [] then some (joinSpace parts) else none

/-- The VIN normalizer `parse_vin_result` (`decoder.py` lines 142-165). -/
def parse_vin_result (vin : String) (result : VpicResult) : Car :=
  { vin := some vin
    year := pyOrNone (dictGet result "ModelYear")
    make := pyOrNone (dictGet result "Make")
    model := pyOrNone (dictGet result "Model")
    body_style := pyOrNone (dictGet result "BodyClass")
    engine := engine_description (pyOrEmpty (dictGet result "EngineCylinders"))
      (pyOrEmpty (dictGet result "DisplacementL"))
      (pyOrEmpty (dictGet result "FuelTypePrimary"))
    assembly := pyOrNone (dictGet result "PlantCountry")
    description :=
      match pyOrNone (dictGet result "Series") with
      | some s => some s
      | none => pyOrNone (dictGet result "Trim") }

/-- Engine description as worded by the specification: concatenate, in
order, the cylinder count suffixed `"-cyl"`, the displacement suffixed
`"L"`, and the fuel type, including each part only when it is present,
joined by single spaces; absent when all three parts are absent. -/
def engineDescriptionSpec (cylinders displacement fuel : Option String) :
    Option String :=
  let parts : List String :=
    (cylinders.map (fun c => c ++ "-cyl")).toList ++
    (displacement.map (fun d => d ++ "L")).toList ++
    fuel.toList
  match parts with
  | [] => none
  | _ :: _ => some (joinSpace parts)

/-! ## The VIN decode adapter (`decoder.py` lines 74-100). -/

/-- Python exception kinds relevant to the decoder, each carrying its
`str(exc)` text. `requests.RequestException` covers transport failures and
the `HTTPError` produced by `raise_for_status`; `otherError` covers any
further exception kind. -/
inductive PyExc where
  | valueError (msg : String)
  | lookupError (msg : String)
  | requestException (msg : String)
  | otherError (msg : String)
  deriving DecidableEq, Repr

/-- Parsed JSON body of a vPIC response; the `Results` key may be absent. -/
structure VpicBody where
  Results : Option (List VpicResult)
  deriving DecidableEq, Repr

/-- Outcome of the HTTP layer inside `decode_vin` (the calls `requests.get`,
`response.raise_for_status()` and `response.json()`), modelled as an oracle:
either one of those library calls raised, or a parsed body was obtained. -/
inductive VpicTransport where
  | raised (e : PyExc)
  | parsed (body : VpicBody)
  deriving DecidableEq, Repr

/-- The VIN decode adapter `decode_vin` (`decoder.py` lines 74-100): after a
successful transport, read `data.get("Results", [])`; raise
`ValueError("Unexpected response structure from NHTSA API")` when that
collection is empty, otherwise return its first element. A library
exception propagates unchanged. -/
def decode_vin (t : VpicTransport) : Except PyExc VpicResult :=
  match t with
  | VpicTransport.raised e => Except.error e
  | VpicTransport.parsed data =>
    match data.Results.getD [] with
    | [] => Except.error (PyExc.valueError "Unexpected response structure from NHTSA API")
    | r :: _ => Except.ok r

/-- Whether a `decode_vin` outcome is a raised `LookupError`. -/
def raisesLookupError (r : Except PyExc VpicResult) : Bool :=
  match r with
  | Except.error (PyExc.lookupError _) => true
  | _ => false

/-! ## Python values and the plate normalizer
(`decoder.py` lines 168-185). -/

/-- A Python value, as far as the plate path needs to distinguish shapes:
`parse_plate_result` accepts any value and checks `isinstance(data, dict)`. -/
inductive PyVal where
  | pystr (s : String)
  | pyint (n : Int)
  | pybool (b : Bool)
  | pynone
  | pylist (xs : List PyVal)
  | pydict (entries : List (String × PyVal))

/-- Python truthiness for a `PyVal`. -/
def truthy : PyVal → Bool
  | PyVal.pystr s => decide (s ≠ "")
  | PyVal.pyint n => decide (n ≠ 0)
  | PyVal.pybool b => b
  | PyVal.pynone => false
  | PyVal.pylist xs => !xs.isEmpty
  | PyVal.pydict d => !d.isEmpty

/-- Python `isinstance(data, dict)`. -/
def PyVal.isDict : PyVal → Bool
  | PyVal.pydict _ => true
  | _ => false

/-- Reading a field of a plate dictionary (`data.get(k)`) into an optional
string field of `Car`: absent keys and non-string values map to the
record's absent state, string values are kept. -/
def pyGetStr (d : List (String × PyVal)) (k : String) : Option String :=
  match d.lookup k with
  | some (PyVal.pystr s) => some s
  | _ => none

/-- Result of `parse_plate_result`: either a `Car` record or the raw input
value passed through unchanged. -/
inductive PlateOut where
  | record (c : Car)
  | passthrough (v : PyVal)

/-- The plate normalizer `parse_plate_result` (`decoder.py` lines 168-185):
any value that is not a dictionary, or is a dictionary without a truthy
`success` entry, is returned unchanged; otherwise the provider fields are
copied into a `Car`. -/
def parse_plate_result (data : PyVal) : PlateOut :=
  match data with
  | PyVal.pydict d =>
    if truthy ((d.lookup "success").getD (PyVal.pybool false)) then
      PlateOut.record
        { vin := pyGetStr d "vin"
          year := pyGetStr d "RegistrationYear"
          make := pyGetStr d "CarMake"
          model := pyGetStr d "CarModel"
          body_style := pyGetStr d "BodyStyle"
          engine := pyGetStr d "EngineSize"
          assembly := pyGetStr d "assembly"
          description := pyGetStr d "Description" }
    else PlateOut.passthrough data
  | v => PlateOut.passthrough v

/-! ## The plate decode adapter (`decoder.py` lines 103-139). -/

/-- The HTTP response object seen by `decode_plate`: status code, body text,
and the outcome of `response.json()` (`Except.error` when the body is
unreadable). -/
structure PlateHttpResponse where
  status : Nat
  text : String
  json : Except String PyVal

/-- Outcome of the `requests.get` call inside `decode_plate`: it raised
(carrying `str(exc)`) or it returned a response object. -/
inductive PlateTransport where
  | raised (msg : String)
  | responded (resp : PlateHttpResponse)

/-- The error message returned by `decode_plate` without an API key. -/
def missingKeyMsg : String :=
  "License plate decoding requires a CarsXE API key. Set the CARSXE_API_KEY environment variable to enable this feature."

/-- The plate decode adapter `decode_plate` (`decoder.py` lines 103-139).
`api_key` is the explicit argument, `envKey` the module-level
`CARSXE_API_KEY`; `plate` and `state` only feed the request parameters,
which the transport oracle absorbs. Every failure branch returns an
`{"error": ...}` dictionary; nothing is raised. -/
def decode_plate (plate state : String) (api_key envKey : Option String)
    (t : PlateTransport) : Except PyExc PyVal :=
  let _ := plate
  let _ := state
  let key := pyOrElse api_key envKey
  if truthyStr key = false then
    Except.ok (PyVal.pydict [("error", PyVal.pystr missingKeyMsg)])
  else
    match t with
    | PlateTransport.raised msg =>
      Except.ok (PyVal.pydict [("error", PyVal.pystr msg)])
    | PlateTransport.responded resp =>
      if resp.status ≠ 200 then
        Except.ok (PyVal.pydict [("error", PyVal.pystr
          ("CarsXE API returned status " ++ toString resp.status ++ ": " ++ resp.text))])
      else
        match resp.json with
        | Except.error _ =>
          Except.ok (PyVal.pydict [("error",
            PyVal.pystr "CarsXE API returned an unreadable response")])
        | Except.ok v => Except.ok v

/-- The four failure cases of `decode_plate` named by the specification:
missing (or empty) API key, transport exception, non-200 status,
unreadable body. -/
def plateFailure (api_key envKey : Option String) (t : PlateTransport) : Prop :=
  truthyStr (pyOrElse api_key envKey) = false ∨
  (∃ m, t = PlateTransport.raised m) ∨
  (∃ r, t = PlateTransport.responded r ∧ r.status ≠ 200) ∨
  (∃ r e, t = PlateTransport.responded r ∧ r.json = Except.error e)

/-! ## The request handler (`app.py` lines 30-49). -/

/-- Python whitespace characters recognised by `str.strip()` (ASCII range). -/
def isSpaceChar (c : Char) : Bool :=
  c == ' ' || c == '\t' || c == '\n' || c == '\r' || c == '\x0b' || c == '\x0c'

/-- Python `str.strip()`: drop whitespace from both ends. -/
def pyStrip (s : String) : String :=
  String.mk (((s.data.dropWhile isSpaceChar).reverse.dropWhile isSpaceChar).reverse)

/-- Python `str.upper()`: uppercase every character. -/
def pyUpper (s : String) : String :=
  String.mk (s.data.map Char.toUpper)

/-- JSON reply body of the decode endpoint: a `car` object or an `error`
message. -/
inductive ReplyBody where
  | carReply (d : List (String × Option String))
  | errorReply (msg : String)
  deriving DecidableEq, Repr

/-- Python `str(exc)` for the modelled exception kinds. -/
def excMessage : PyExc → String
  | PyExc.valueError m => m
  | PyExc.lookupError m => m
  | PyExc.requestException m => m
  | PyExc.otherError m => m

/-- The `/decode` request handler (`app.py` lines 30-49): trim and uppercase
the submitted VIN; empty VIN gives status 400; a pipeline exception gives
status 500 carrying `str(exc)`; otherwise status 200 with the serialized
record. The `year` form field only feeds the request parameters, which the
transport oracle absorbs. -/
def decode_endpoint (vin_form year_form : String) (t : VpicTransport) :
    ReplyBody × Nat :=
  let vin := pyUpper (pyStrip vin_form)
  let _year := pyStrip year_form
  if vin ≠ "" then
    match decode_vin t with
    | Except.ok raw => (ReplyBody.carReply (parse_vin_result vin raw).to_dict, 200)
    | Except.error e => (ReplyBody.errorReply (excMessage e), 500)
  else
    (ReplyBody.errorReply "Please provide a VIN.", 400)

/-! ## Helper lemmas -/

theorem keptValue_iff (v : Option String) :
    keptValue v = true ↔ v ≠ none ∧ v ≠ some "" := by
  cases v with
  | none => simp [keptValue]
  | some s => simp [keptValue]

theorem pyOrNone_eq_emptyCheck (v : Option String) :
    pyOrNone v = if pyOrEmpty v = "" then none else some (pyOrEmpty v) := by
  rcases v with _ | s
  · simp [pyOrNone, pyOrEmpty, truthyStr]
  · by_cases h : s = "" <;> simp [pyOrNone, pyOrEmpty, truthyStr, h]

theorem pyOrNone_ne_some_empty (v : Option String) : pyOrNone v ≠ some "" := by
  rcases v with _ | s
  · simp [pyOrNone, truthyStr]
  · by_cases h : s = "" <;> simp [pyOrNone, truthyStr, h]

theorem length_pos_of_ne_empty (s : String) (h : s ≠ "") : 0 < s.length := by
  rcases hn : s.length with _ | n
  · exact absurd (String.ext_iff.mpr (List.length_eq_zero.mp hn)) h
  · exact Nat.succ_pos n

theorem ne_empty_of_length_pos (s : String) (h : 0 < s.length) : s ≠ "" := by
  intro hs
  rw [hs] at h
  exact Nat.lt_irrefl 0 h

theorem append_ne_empty_of_right (a b : String) (h : b ≠ "") : a ++ b ≠ "" := by
  apply ne_empty_of_length_pos
  rw [String.length_append]
  have hb := length_pos_of_ne_empty b h
  omega

theorem joinSpace_ne_empty (p : String) (ps : List String) (h : p ≠ "") :
    joinSpace (p :: ps) ≠ "" := by
  cases ps with
  | nil => simpa [joinSpace] using h
  | cons q qs =>
    apply ne_empty_of_length_pos
    show 0 < (p ++ " " ++ joinSpace (q :: qs)).length
    have hone : (" " : String).length = 1 := rfl
    rw [String.length_append, String.length_append, hone]
    omega

theorem engine_description_eq_spec (c d f : String) :
    engine_description c d f
      = engineDescriptionSpec (if c = "" then none else some c)
        (if d = "" then none else some d) (if f = "" then none else some f) := by
  by_cases hc : c = "" <;> by_cases hd : d = "" <;> by_cases hf : f = "" <;>
    simp [engine_description, engineDescriptionSpec, joinSpace, hc, hd, hf]

theorem engine_description_ne_some_empty (c d f : String) :
    engine_description c d f ≠ some "" := by
  have hcyl : c ++ "-cyl" ≠ "" :=
    append_ne_empty_of_right c "-cyl" (by decide)
  have hL : d ++ "L" ≠ "" :=
    append_ne_empty_of_right d "L" (by decide)
  by_cases hc : c = "" <;> by_cases hd : d = "" <;> by_cases hf : f = "" <;>
    simp [engine_description, hc, hd, hf] <;>
    first
      | exact joinSpace_ne_empty _ _ hcyl
      | exact joinSpace_ne_empty _ _ hL
      | exact joinSpace_ne_empty _ _ hf

/-- A value that is absent, or present and non-empty. -/
def noneOrNonempty (v : Option String) : Prop :=
  v = none ∨ ∃ s, v = some s ∧ s ≠ ""

theorem noneOrNonempty_of_ne (v : Option String) (h : v ≠ some "") :
    noneOrNonempty v := by
  rcases v with _ | s
  · exact Or.inl rfl
  · exact Or.inr ⟨s, rfl, fun hs => h (by rw [hs])⟩

/-! ## Claim theorems -/

/-- C1: `Car.to_dict` contains exactly those fields of the record whose
value is neither `None` nor the empty string, so no key in any serialized
output (in particular any serialized decode response) ever maps to `None`
or `""`. -/
theorem to_dict_keeps_exactly_defined_fields (c : Car) :
    (∀ k v, (k, v) ∈ c.to_dict ↔ ((k, v) ∈ c.asdict_items ∧ v ≠ none ∧ v ≠ some "")) ∧
    (∀ k v, (k, v) ∈ c.to_dict → v ≠ none ∧ v ≠ some "") := by
  constructor
  · intro k v
    simp [Car.to_dict, List.mem_filter, keptValue_iff, and_assoc]
  · intro k v h
    exact (keptValue_iff v).mp (List.mem_filter.mp h).2

/-- Witness for C1 at a concrete record: the defined `make` field is kept,
the undefined `year` field is dropped. -/
theorem to_dict_keeps_exactly_defined_fields_spot :
    ("make", some "Toyota") ∈ (Car.mk none none (some "Toyota") none none none none none).to_dict ∧
    (("year", (none : Option String)) ∈ (Car.mk none none (some "Toyota") none none none none none).to_dict → False) := by
  constructor
  · exact ((to_dict_keeps_exactly_defined_fields _).1 "make" (some "Toyota")).mpr (by decide)
  · intro h
    exact ((to_dict_keeps_exactly_defined_fields _).2 "year" none h).1 rfl

/-- C2 counterexample: on a parsed body with an empty result collection,
`decode_vin` raises `ValueError`, not `LookupError` as the claim states. -/
theorem decode_vin_empty_results_not_lookupError :
    decode_vin (VpicTransport.parsed ⟨some []⟩)
      = Except.error (PyExc.valueError "Unexpected response structure from NHTSA API") ∧
    raisesLookupError (decode_vin (VpicTransport.parsed ⟨some []⟩)) = false :=
  ⟨rfl, rfl⟩

/-- C2 (amended): given a transport that succeeded with a success status
and a parseable body, `decode_vin` raises `ValueError` (with the message
"Unexpected response structure from NHTSA API") if and only if the result
collection is empty. -/
theorem decode_vin_empty_results_valueError_iff (body : VpicBody) :
    decode_vin (VpicTransport.parsed body)
        = Except.error (PyExc.valueError "Unexpected response structure from NHTSA API")
      ↔ body.Results.getD [] = [] := by
  rcases body with ⟨res⟩
  rcases h : res.getD [] with _ | ⟨r, rs⟩ <;> simp [decode_vin, h]

/-- Witness for C2 (amended) at a concrete body with `Results = []`. -/
theorem decode_vin_empty_results_valueError_iff_spot :
    decode_vin (VpicTransport.parsed ⟨some []⟩)
      = Except.error (PyExc.valueError "Unexpected response structure from NHTSA API") :=
  (decode_vin_empty_results_valueError_iff ⟨some []⟩).mpr rfl

/-- C3: the engine field built by `parse_vin_result` agrees with the
specification's description (parts suffixed "-cyl" and "L" plus the fuel
type, each only when present, joined by single spaces); on cylinders "6",
displacement "3.5", fuel "Gasoline" it is "6-cyl 3.5L Gasoline", and with
all three absent it is absent. -/
theorem parse_vin_result_engine_assembly (vin : String) (r : VpicResult) :
    (parse_vin_result vin r).engine
      = engineDescriptionSpec (pyOrNone (dictGet r "EngineCylinders"))
        (pyOrNone (dictGet r "DisplacementL"))
        (pyOrNone (dictGet r "FuelTypePrimary")) ∧
    (parse_vin_result vin
      [("EngineCylinders", some "6"), ("DisplacementL", some "3.5"),
       ("FuelTypePrimary", some "Gasoline")]).engine = some "6-cyl 3.5L Gasoline" ∧
    (parse_vin_result vin []).engine = none := by
  refine ⟨?_, rfl, rfl⟩
  show engine_description (pyOrEmpty (dictGet r "EngineCylinders"))
      (pyOrEmpty (dictGet r "DisplacementL"))
      (pyOrEmpty (dictGet r "FuelTypePrimary")) = _
  rw [engine_description_eq_spec, ← pyOrNone_eq_emptyCheck,
    ← pyOrNone_eq_emptyCheck, ← pyOrNone_eq_emptyCheck]

/-- C7: when the parsed provider response contains a non-empty result
collection, `decode_vin` returns exactly its first element. -/
theorem decode_vin_returns_first_result (body : VpicBody) (r : VpicResult)
    (rs : List VpicResult) (h : body.Results.getD [] = r :: rs) :
    decode_vin (VpicTransport.parsed body) = Except.ok r := by
  rcases body with ⟨res⟩
  simp only at h
  simp [decode_vin, h]

/-- Witness for C7 at a two-element result collection. -/
theorem decode_vin_returns_first_result_spot :
    decode_vin (VpicTransport.parsed
        ⟨some [[("Make", some "HONDA")], [("Make", some "TOYOTA")]]⟩)
      = Except.ok [("Make", some "HONDA")] :=
  decode_vin_returns_first_result _ _ [[("Make", some "TOYOTA")]] rfl

/-- C10: the `vin` field of the record returned by `parse_vin_result` is
always the `vin` argument, whatever the provider result contains. -/
theorem parse_vin_result_vin_field (vin : String) (r : VpicResult) :
    (parse_vin_result vin r).vin = some vin := rfl

/-- C9: every field other than `vin` of the record returned by
`parse_vin_result` is either absent or a non-empty string; empty provider
values are coerced to the absent state before being stored. -/
theorem parse_vin_result_no_empty_fields (vin : String) (r : VpicResult) :
    noneOrNonempty (parse_vin_result vin r).year ∧
    noneOrNonempty (parse_vin_result vin r).make ∧
    noneOrNonempty (parse_vin_result vin r).model ∧
    noneOrNonempty (parse_vin_result vin r).body_style ∧
    noneOrNonempty (parse_vin_result vin r).engine ∧
    noneOrNonempty (parse_vin_result vin r).assembly ∧
    noneOrNonempty (parse_vin_result vin r).description := by
  refine ⟨noneOrNonempty_of_ne _ (pyOrNone_ne_some_empty _),
    noneOrNonempty_of_ne _ (pyOrNone_ne_some_empty _),
    noneOrNonempty_of_ne _ (pyOrNone_ne_some_empty _),
    noneOrNonempty_of_ne _ (pyOrNone_ne_some_empty _),
    noneOrNonempty_of_ne _ (engine_description_ne_some_empty _ _ _),
    noneOrNonempty_of_ne _ (pyOrNone_ne_some_empty _),
    noneOrNonempty_of_ne _ ?_⟩
  show (match pyOrNone (dictGet r "Series") with
      | some s => some s
      | none => pyOrNone (dictGet r "Trim")) ≠ some ""
  rcases hs : pyOrNone (dictGet r "Series") with _ | s
  · simpa using pyOrNone_ne_some_empty (dictGet r "Trim")
  · intro hcontra
    simp only [Option.some.injEq] at hcontra
    exact pyOrNone_ne_some_empty (dictGet r "Series") (hs.trans (by rw [hcontra]))

/-- C4: a dictionary without a truthy `success` entry passes through
`parse_plate_result` unchanged. -/
theorem parse_plate_result_error_passthrough (d : List (String × PyVal))
    (h : truthy ((d.lookup "success").getD (PyVal.pybool false)) = false) :
    parse_plate_result (PyVal.pydict d) = PlateOut.passthrough (PyVal.pydict d) := by
  simp [parse_plate_result, h]

/-- Witness for C4 at a concrete error dictionary with `success = false`. -/
theorem parse_plate_result_error_passthrough_spot :
    parse_plate_result (PyVal.pydict
        [("success", PyVal.pybool false), ("message", PyVal.pystr "no result")])
      = PlateOut.passthrough (PyVal.pydict
        [("success", PyVal.pybool false), ("message", PyVal.pystr "no result")]) :=
  parse_plate_result_error_passthrough _ rfl

/-- C8: any value that is not a dictionary at all passes through
`parse_plate_result` unchanged. -/
theorem parse_plate_result_nondict_passthrough (v : PyVal) (h : v.isDict = false) :
    parse_plate_result v = PlateOut.passthrough v := by
  cases v with
  | pydict d => simp [PyVal.isDict] at h
  | pystr s => rfl
  | pyint n => rfl
  | pybool b => rfl
  | pynone => rfl
  | pylist xs => rfl

/-- Witness for C8 at a plain string input. -/
theorem parse_plate_result_nondict_passthrough_spot :
    parse_plate_result (PyVal.pystr "ABC123")
      = PlateOut.passthrough (PyVal.pystr "ABC123") :=
  parse_plate_result_nondict_passthrough (PyVal.pystr "ABC123") rfl

/-- C5: `decode_plate` never raises, and in every failure case (missing API
key, transport exception, non-200 status, unreadable body) it returns a
dictionary containing an `error` key. -/
theorem decode_plate_never_raises (plate state : String)
    (api_key envKey : Option String) (t : PlateTransport) :
    (∀ e, decode_plate plate state api_key envKey t ≠ Except.error e) ∧
    (plateFailure api_key envKey t →
      ∃ d, decode_plate plate state api_key envKey t = Except.ok (PyVal.pydict d) ∧
        (d.lookup "error").isSome = true) := by
  cases hk : truthyStr (pyOrElse api_key envKey) with
  | false =>
    constructor
    · intro e
      simp [decode_plate, hk]
    · intro _
      exact ⟨[("error", PyVal.pystr missingKeyMsg)], by simp [decode_plate, hk], rfl⟩
  | true =>
    cases t with
    | raised m =>
      constructor
      · intro e
        simp [decode_plate, hk]
      · intro _
        exact ⟨[("error", PyVal.pystr m)], by simp [decode_plate, hk], rfl⟩
    | responded resp =>
      by_cases hs : resp.status = 200
      · cases hj : resp.json with
        | error err =>
          constructor
          · intro e
            simp [decode_plate, hk, hs, hj]
          · intro _
            exact ⟨[("error", PyVal.pystr "CarsXE API returned an unreadable response")],
              by simp [decode_plate, hk, hs, hj], rfl⟩
        | ok v =>
          constructor
          · intro e
            simp [decode_plate, hk, hs, hj]
          · intro hf
            rcases hf with h1 | ⟨m, h2⟩ | ⟨rr, h3, h4⟩ | ⟨rr, e2, h5, h6⟩
            · rw [hk] at h1
              exact absurd h1 (by decide)
            · simp at h2
            · injection h3 with h3e
              rw [← h3e] at h4
              exact absurd hs h4
            · injection h5 with h5e
              rw [← h5e, hj] at h6
              simp at h6
      · constructor
        · intro e
          simp [decode_plate, hk, hs]
        · intro _
          exact ⟨[("error", PyVal.pystr
              ("CarsXE API returned status " ++ toString resp.status ++ ": " ++ resp.text))],
            by simp [decode_plate, hk, hs], rfl⟩

/-- Witness for C5: a transport exception with no configured key still
yields an `error` dictionary. -/
theorem decode_plate_never_raises_spot :
    ∃ d, decode_plate "ABC123" "CA" none none (PlateTransport.raised "boom")
        = Except.ok (PyVal.pydict d) ∧ (d.lookup "error").isSome = true :=
  (decode_plate_never_raises "ABC123" "CA" none none
    (PlateTransport.raised "boom")).2 (Or.inl rfl)

/-- C6: the decode endpoint returns 400 with an error message on an empty
trimmed VIN, 500 carrying the exception text when the pipeline raises, and
200 with the serialized record on success. -/
theorem decode_endpoint_status_contract (vin_form year_form : String)
    (t : VpicTransport) :
    (pyUpper (pyStrip vin_form) = "" →
      decode_endpoint vin_form year_form t
        = (ReplyBody.errorReply "Please provide a VIN.", 400)) ∧
    (pyUpper (pyStrip vin_form) ≠ "" → ∀ e, decode_vin t = Except.error e →
      decode_endpoint vin_form year_form t
        = (ReplyBody.errorReply (excMessage e), 500)) ∧
    (pyUpper (pyStrip vin_form) ≠ "" → ∀ raw, decode_vin t = Except.ok raw →
      decode_endpoint vin_form year_form t
        = (ReplyBody.carReply
            (parse_vin_result (pyUpper (pyStrip vin_form)) raw).to_dict, 200)) := by
  refine ⟨?_, ?_, ?_⟩
  · intro h
    simp [decode_endpoint, h]
  · intro h e he
    simp [decode_endpoint, h, he]
  · intro h raw hr
    simp [decode_endpoint, h, hr]

/-- Witness for C6: the three branches at concrete requests. -/
theorem decode_endpoint_status_contract_spot :
    decode_endpoint "   " "" (VpicTransport.parsed ⟨some [[("Make", some "HONDA")]]⟩)
      = (ReplyBody.errorReply "Please provide a VIN.", 400) ∧
    decode_endpoint "1hgcm82633a004352" ""
        (VpicTransport.raised (PyExc.requestException "connection timed out"))
      = (ReplyBody.errorReply "connection timed out", 500) ∧
    decode_endpoint "1hgcm82633a004352" "2003"
        (VpicTransport.parsed ⟨some [[("Make", some "HONDA")]]⟩)
      = (ReplyBody.carReply
          (parse_vin_result (pyUpper (pyStrip "1hgcm82633a004352"))
            [("Make", some "HONDA")]).to_dict, 200) :=
  ⟨(decode_endpoint_status_contract "   " ""
      (VpicTransport.parsed ⟨some [[("Make", some "HONDA")]]⟩)).1 rfl,
   (decode_endpoint_status_contract "1hgcm82633a004352" ""
      (VpicTransport.raised (PyExc.requestException "connection timed out"))).2.1
     (by decide) (PyExc.requestException "connection timed out") rfl,
   (decode_endpoint_status_contract "1hgcm82633a004352" "2003"
      (VpicTransport.parsed ⟨some [[("Make", some "HONDA")]]⟩)).2.2
     (by decide) [("Make", some "HONDA")] rfl⟩

end VehicleDecoder
